import Mathlib

/-!
Shallow embedding of the run-time simulation core of the WebXR AR tower-defense
game (src/proj/src/main.ts, class TowerDefenseGame), together with proofs of the
frozen claims about it.

Modelling conventions:
* JavaScript `number` values are modelled as exact rationals (`ℚ`) for positions,
  speeds, healths and fire rates, and as integers (`ℤ`) for millisecond
  timestamps (`Date.now()` values) and point balances.
* `Math.round` is `jsRound` below (round half toward positive infinity).
* `Math.sqrt` comparisons: the source compares Euclidean distances
  (`Math.sqrt(dx*dx+dy*dy)`).  The embedding computes the squared distance
  (`calculateDistance2DSq`) and compares squares; the bridging lemmas
  (`inRangeB_iff_sqrt` etc.) show the embedded comparisons coincide with the
  source's comparisons of real square roots, because `Real.sqrt` is monotone:
  `√d ≤ r ↔ 0 ≤ r ∧ d ≤ r·r` and `√d < √d' ↔ d < d'` on nonnegatives.
* The AR tracking layer, the DOM and the render sink are external: per-tower
  tracking facts (membership in `towerTrackedTargets`, `object3D.visible`, the
  `towerLostTimes` entry) are a `TowerTracking` record, anchor world poses are
  `Option Position2D` arguments (null when the pose is unavailable), and the
  ordered `querySelectorAll("a-entity.tower")` result is a `List ℕ` of anchor
  identities.  Visual child handles (sphere, circle, moving text, build ring)
  are modelled by their presence (`Bool`); attribute writes on them are
  display-sink effects with no bearing on simulation state and are elided.
* `setInterval` timers are modelled by the `spawnInterval : Option ℤ` field
  holding the cadence (ms) of the live spawn timer (`none` = no live timer);
  the timer's callback body is the explicit state transition `startWaveTick`.
* `Math.random()`-derived data (spawn angle, spawn position) enters as an
  explicit argument where the source samples it.
-/

/-! ## Basic data -/

/-- A 2D point in the base target's local plane (source interface `Position2D`). -/
structure Position2D where
  x : ℚ
  y : ℚ
deriving DecidableEq, Repr

/-- A live enemy (source interface `Enemy`).  The `entity` display handle is
owned by the render sink; `pos` is the world position that
`getEnemyWorldPosition` reports for it (`none` when the underlying object is
unavailable).  The source's `targetPosition` is always the base origin `(0,0)`
and is not needed by the claims. -/
structure Enemy where
  id : String
  pos : Option Position2D
  speed : ℚ
  health : ℤ
deriving DecidableEq, Repr

/-- Per-tower state (source interface `TowerInstance`).  `target` is the tracked
anchor's identity (its position in the document's tower-element list); the four
visual handles are modelled by presence. -/
structure TowerInstance where
  target : ℕ
  sphere : Bool
  circle : Bool
  movingText : Bool
  buildRing : Bool
  homePosition : Option Position2D
  lastPosition : Option Position2D
  isMoving : Bool
  lastMovementTime : ℤ
  lastShotTime : ℤ
  fireRateMs : ℚ
  range : ℚ
deriving DecidableEq, Repr

/-- Externally-tracked per-tower facts (source fields `towerTrackedTargets`,
`object3D.visible`, and the `towerLostTimes` map entry). -/
structure TowerTracking where
  tracked : Bool
  objectVisible : Bool
  lostTime : Option ℤ
deriving DecidableEq, Repr

/-- One entry of the source's `waveConfig` table. -/
structure WaveConfigEntry where
  count : ℕ
  baseSpeed : ℚ
  spreadAngle : ℚ
  duration : ℕ
deriving DecidableEq, Repr

/-- The upgrade track identifiers (source type `UpgradeId`). -/
inductive UpgradeId
  | towerCount
  | range
  | baseHealth
  | fireRate
  | rebuildSpeed
  | waveSkip
deriving DecidableEq, Repr

/-- One upgrade level (source interface `UpgradeLevel`): effect value and the
marginal cost to reach this level from the previous one. -/
structure UpgradeLevel where
  value : ℚ
  cost : ℤ
deriving DecidableEq, Repr

/-- An upgrade track definition (source interface `UpgradeDefinition`); the UI
strings (`name`, `desc`, `format`) are display-only and elided. -/
structure UpgradeDefinition where
  id : UpgradeId
  levels : List UpgradeLevel
deriving DecidableEq, Repr

/-- The mutable state of the `TowerDefenseGame` class that the simulation core
reads and writes (UI element references and storage keys elided). -/
structure GameState where
  health : ℚ
  points : ℤ
  gameOver : Bool
  gameWon : Bool
  enemies : List Enemy
  enemyIdCounter : ℕ
  spawnCount : ℕ
  spawnInterval : Option ℤ
  currentWave : ℕ
  waveActive : Bool
  wavePaused : Bool
  enemiesSpawnedInWave : ℕ
  pausedWaveConfig : Option WaveConfigEntry
  pausedWaveCompleted : Bool
  towerFireRateMs : ℚ
  towerRange : ℚ
  towerStabilityTimeMs : ℤ
  defaultBaseHealth : ℚ
  upgradeState : UpgradeId → ℕ
  towers : List TowerInstance

/-! ## Constants (source `readonly` fields) -/

def MIN_SPAWN_TIME : ℤ := 10

def TOWER_LOST_GRACE_PERIOD : ℤ := 100

def TOWER_BASE_RANGE : ℚ := 700

def STABILITY_BASE_TIME : ℤ := 3000

/-- Square of the source's `MOVEMENT_THRESHOLD = 0.3` (distances are compared
squared, see the header). -/
def MOVEMENT_THRESHOLD_SQ : ℚ := 9/100

/-- Square of the frame-to-frame jitter tolerance literal `0.1` in
`checkTowerMovementForTower`. -/
def JITTER_TOLERANCE_SQ : ℚ := 1/100

def totalWaves : ℕ := 10

def pointMultiplier : ℚ := 1

/-- JavaScript `Math.round`: round half toward positive infinity. -/
def jsRound (q : ℚ) : ℤ := Int.floor (q + 1/2)

/-! ## Static tables -/

/-- The source's `waveConfig` array (ten waves). -/
def waveConfigTable : List WaveConfigEntry :=
  [⟨5, 1/2, 10, 6000⟩,
   ⟨10, 1/2, 30, 8000⟩,
   ⟨15, 3/4, 60, 10000⟩,
   ⟨20, 1, 90, 10000⟩,
   ⟨30, 6/5, 120, 10000⟩,
   ⟨50, 3/2, 180, 12000⟩,
   ⟨70, 2, 240, 12000⟩,
   ⟨100, 5/2, 300, 15000⟩,
   ⟨200, 3, 330, 20000⟩,
   ⟨500, 4, 360, 30000⟩]

/-- The source's `upgradeDefs` table, indexed by track id. -/
def upgradeDefs : UpgradeId → UpgradeDefinition
  | UpgradeId.towerCount =>
      ⟨UpgradeId.towerCount, [⟨1, 0⟩, ⟨2, 50⟩, ⟨3, 100⟩]⟩
  | UpgradeId.range =>
      ⟨UpgradeId.range,
        [⟨1, 0⟩, ⟨6/5, 5⟩, ⟨3/2, 10⟩, ⟨9/5, 20⟩, ⟨2, 30⟩, ⟨5/2, 50⟩, ⟨3, 70⟩]⟩
  | UpgradeId.fireRate =>
      ⟨UpgradeId.fireRate,
        [⟨2000, 0⟩, ⟨1800, 5⟩, ⟨1600, 10⟩, ⟨1400, 15⟩, ⟨1200, 20⟩, ⟨1000, 35⟩,
         ⟨800, 40⟩, ⟨500, 50⟩, ⟨300, 60⟩, ⟨200, 70⟩, ⟨100, 80⟩]⟩
  | UpgradeId.rebuildSpeed =>
      ⟨UpgradeId.rebuildSpeed,
        [⟨3000, 0⟩, ⟨2500, 10⟩, ⟨2000, 20⟩, ⟨1500, 30⟩, ⟨1000, 40⟩, ⟨750, 50⟩,
         ⟨500, 60⟩, ⟨250, 70⟩, ⟨100, 80⟩]⟩
  | UpgradeId.baseHealth =>
      ⟨UpgradeId.baseHealth, [⟨100, 0⟩, ⟨150, 10⟩, ⟨200, 20⟩, ⟨300, 30⟩, ⟨500, 50⟩]⟩
  | UpgradeId.waveSkip =>
      ⟨UpgradeId.waveSkip, [⟨1, 0⟩, ⟨2, 25⟩, ⟨3, 50⟩, ⟨4, 75⟩, ⟨5, 100⟩]⟩

/-! ## Distances -/

/-- Squared Euclidean distance in the game plane.  The source's
`calculateDistance2D` returns `Math.sqrt` of this value; every use in the
source immediately compares the result against a nonnegative bound, and the
bridging lemmas below show the squared comparison is the same comparison. -/
def calculateDistance2DSq (pos1 pos2 : Position2D) : ℚ :=
  (pos2.x - pos1.x) * (pos2.x - pos1.x) + (pos2.y - pos1.y) * (pos2.y - pos1.y)

/-! ## Upgrade ledger reads (source `getUpgradeCurrentValue` etc.) -/

/-- Source `getUpgradeCurrentValue` / `getUpgradeCurrentValueById`: the level
index is clamped to the last level on read. -/
def getUpgradeCurrentValueById (i : UpgradeId) (st : UpgradeId → ℕ) : ℚ :=
  let d := upgradeDefs i
  (d.levels.getD (min (st i) (d.levels.length - 1)) ⟨0, 0⟩).value

/-- Source `getUpgradeNextCost`: cost of the next level, `0` ("max" sentinel)
when already at the last level. -/
def getUpgradeNextCost (st : UpgradeId → ℕ) (i : UpgradeId) : ℤ :=
  let d := upgradeDefs i
  let nextLvl := st i + 1
  if d.levels.length ≤ nextLvl then 0 else (d.levels.getD nextLvl ⟨0, 0⟩).cost

/-! ## Upgrade effect application and tower (re)initialization -/

/-- Source `applyUpgradeEffects`: derive the global parameters from the ledger,
re-propagate range/fire-rate into every live tower instance, and set the current
health to the derived base max health.  `rebuildMs || STABILITY_BASE_TIME` is
JavaScript truthiness: the fallback fires when the value is `0`. -/
def applyUpgradeEffects (s : GameState) : GameState :=
  let rangeFactor := getUpgradeCurrentValueById UpgradeId.range s.upgradeState
  let newRange := TOWER_BASE_RANGE * rangeFactor
  let newFireRate := getUpgradeCurrentValueById UpgradeId.fireRate s.upgradeState
  let newBaseHealth := getUpgradeCurrentValueById UpgradeId.baseHealth s.upgradeState
  let rebuildMs := getUpgradeCurrentValueById UpgradeId.rebuildSpeed s.upgradeState
  { s with
    towerRange := newRange
    towerFireRateMs := newFireRate
    defaultBaseHealth := newBaseHealth
    towerStabilityTimeMs :=
      max 200 (jsRound (if rebuildMs = 0 then ((STABILITY_BASE_TIME : ℤ) : ℚ) else rebuildMs))
    towers := s.towers.map (fun t => { t with range := newRange, fireRateMs := newFireRate })
    health := newBaseHealth }

/-- The per-run reset that `initializeTowersFromUpgrades` applies to an
already-existing instance for a still-unlocked anchor (object identity, and so
listener registration, is kept; `target` is unchanged). -/
def resetExistingTower (fr rg : ℚ) (t : TowerInstance) : TowerInstance :=
  { t with
    sphere := false, circle := false, movingText := false, buildRing := false
    homePosition := none, lastPosition := none, isMoving := false
    lastMovementTime := 0, lastShotTime := 0, fireRateMs := fr, range := rg }

/-- The fresh instance that `initializeTowersFromUpgrades` builds for a newly
unlocked anchor. -/
def mkFreshTower (target : ℕ) (fr rg : ℚ) : TowerInstance :=
  { target := target
    sphere := false, circle := false, movingText := false, buildRing := false
    homePosition := none, lastPosition := none, isMoving := false
    lastMovementTime := 0, lastShotTime := 0, fireRateMs := fr, range := rg }

/-- Source `initializeTowersFromUpgrades`.  `anchors` is the ordered
`querySelectorAll("a-entity.tower")` result (anchor identities in document
order); the first `1 + level("tower-count")` of them are unlocked
(`slice(0, maxTowers)`), the rest are hidden (a display effect, elided).  An
anchor that already has an instance keeps it (reset in place); a new anchor
gets a fresh instance. -/
def initializeTowersFromUpgrades (anchors : List ℕ) (s : GameState) : GameState :=
  let maxTowers := 1 + s.upgradeState UpgradeId.towerCount
  let activeAnchors := anchors.take maxTowers
  { s with towers := activeAnchors.map (fun a =>
      match s.towers.find? (fun t => t.target == a) with
      | some t => resetExistingTower s.towerFireRateMs s.towerRange t
      | none => mkFreshTower a s.towerFireRateMs s.towerRange) }

/-- Source `reinitializeTowersAfterUpgrades`: recompute upgraded stats, then
re-derive the tower list.  (The preliminary visual deactivation loop only
touches display handles that `resetExistingTower` clears again.) -/
def reinitializeTowersAfterUpgrades (anchors : List ℕ) (s : GameState) : GameState :=
  initializeTowersFromUpgrades anchors (applyUpgradeEffects s)

/-- Source `purchaseUpgrade`: reject when the balance is insufficient, otherwise
debit, bump the ledger, re-apply upgrade effects, and for "tower-count"
reinitialize the tower list. -/
def purchaseUpgrade (anchors : List ℕ) (i : UpgradeId) (cost : ℤ) (s : GameState) : GameState :=
  if s.points < cost then s
  else
    let s1 := { s with points := s.points - cost }
    let s2 := { s1 with upgradeState :=
      fun j => if j = i then s1.upgradeState j + 1 else s1.upgradeState j }
    let s3 := applyUpgradeEffects s2
    if i = UpgradeId.towerCount then reinitializeTowersAfterUpgrades anchors s3 else s3

/-- The program's purchase path: `renderUpgradeUI` computes `maxLevelReached`
and `disabled` and wires the button so that `purchaseUpgrade(def.id, nextCost)`
runs only when not disabled.  This is the only call site of `purchaseUpgrade`. -/
def attemptPurchase (anchors : List ℕ) (i : UpgradeId) (s : GameState) : GameState :=
  let d := upgradeDefs i
  let nextCost := getUpgradeNextCost s.upgradeState i
  let maxLevelReached := d.levels.length - 1 ≤ s.upgradeState i
  if maxLevelReached ∨ s.points < nextCost then s
  else purchaseUpgrade anchors i nextCost s

/-! ## Targeting (source `checkTowerAttacksForTower` and helpers) -/

/-- The source's in-range test `distance <= tower.range`, on squared distances:
over the reals, `√d ≤ r ↔ 0 ≤ r ∧ d ≤ r·r` (lemma `inRangeB_iff_sqrt`). -/
def inRangeB (r d : ℚ) : Bool := decide (0 ≤ r) && decide (d ≤ r * r)

/-- One iteration of the source's `this.enemies.forEach` scan: skip enemies
with no available world position; otherwise keep the running closest in-range
candidate, replacing it only on a strictly smaller distance (so the first
enemy encountered at the minimum wins).  `√d < √d'` on nonnegatives is
`d < d'`, so the strict comparison is taken on squares. -/
def selStep (tp : Position2D) (r : ℚ) (acc : Option (String × ℚ)) (e : Enemy) :
    Option (String × ℚ) :=
  match e.pos with
  | none => acc
  | some p =>
    let d := calculateDistance2DSq tp p
    match acc with
    | none => if inRangeB r d then some (e.id, d) else none
    | some best =>
        if inRangeB r d && decide (d < best.2) then some (e.id, d) else some best

/-- The full scan: `closestEnemyId`/`closestDistance` accumulation over the
enemy collection in iteration (= insertion) order. -/
def selectClosestEnemyInRange (tp : Position2D) (r : ℚ) (es : List Enemy) :
    Option (String × ℚ) :=
  es.foldl (selStep tp r) none

/-! ## Tower visibility / attack readiness -/

/-- Source `isTowerVisible`: tracked (a `targetFound` has been seen), the
object is currently visible, and not within the post-loss grace period.  The
source's grace test is `if (lostTime && now - lostTime < GRACE)`: a recorded
loss time of `0` is JavaScript-falsy and skips the grace check. -/
def isTowerVisible (tr : TowerTracking) (now : ℤ) : Bool :=
  tr.tracked && tr.objectVisible &&
    !(match tr.lostTime with
      | some lt => decide (lt ≠ 0) && decide (now - lt < TOWER_LOST_GRACE_PERIOD)
      | none => false)

/-- Source `isTowerReadyToAttack`: visible, has an established home position,
and not currently moving/building. -/
def isTowerReadyToAttack (tr : TowerTracking) (now : ℤ) (t : TowerInstance) : Bool :=
  isTowerVisible tr now && t.homePosition.isSome && !t.isMoving

/-! ## Run-state transitions used by combat -/

/-- Source `stopEnemySpawning`: cancel the live spawn timer; either hard-reset
wave progression (`resetProgress = true`) or pause it (base-tracking loss). -/
def stopEnemySpawning (resetProgress : Bool) (s : GameState) : GameState :=
  let s1 := { s with spawnInterval := none }
  if resetProgress then
    { s1 with
      spawnCount := 0, currentWave := 0, waveActive := false
      wavePaused := false, enemiesSpawnedInWave := 0, pausedWaveConfig := none }
  else
    { s1 with waveActive := false, wavePaused := true }

/-- Source `handleWin` (display effects elided). -/
def handleWin (s : GameState) : GameState :=
  stopEnemySpawning false
    { s with gameWon := true, gameOver := true, waveActive := false, wavePaused := false }

/-- Source `checkWinCondition`. -/
def checkWinCondition (s : GameState) : GameState :=
  if s.gameWon then s
  else if ¬(s.currentWave = totalWaves ∧ 0 < s.currentWave) then s
  else
    match waveConfigTable.get? (totalWaves - 1) with
    | none => s
    | some fc =>
      if (fc.count ≤ s.enemiesSpawnedInWave ∧ s.spawnInterval = none ∧
          s.waveActive = false ∧ s.wavePaused = false) ∧ s.enemies.length = 0
      then handleWin s else s

/-- Source `destroyEnemy`: remove the enemy with the given id (a no-op when the
id is absent), then re-check the win condition. -/
def destroyEnemy (enemyId : String) (s : GameState) : GameState :=
  checkWinCondition { s with enemies := s.enemies.eraseP (fun e => e.id == enemyId) }

/-- Source `addPoints`: no points while the run is over; otherwise add the
multiplier-scaled (and rounded) amount. -/
def addPoints (n : ℚ) (s : GameState) : GameState :=
  if s.gameOver then s
  else { s with points := s.points + jsRound (n * pointMultiplier) }

/-- Source `checkTowerAttacksForTower`: gate on readiness and cooldown, resolve
the tower's world position, scan for the closest in-range enemy, and on a hit
award one point, destroy that single enemy, and stamp the shot time.
`if (closestEnemyId)` is JavaScript truthiness, so an empty-string id would not
fire; the subsequent `this.enemies.get` lookup mirrors as `find?`. -/
def checkTowerAttacksForTower (tr : TowerTracking) (twp : Option Position2D)
    (now : ℤ) (t : TowerInstance) (s : GameState) : TowerInstance × GameState :=
  if !(isTowerReadyToAttack tr now t) then (t, s)
  else if ((now - t.lastShotTime : ℤ) : ℚ) < t.fireRateMs then (t, s)
  else
    match twp with
    | none => (t, s)
    | some tpos =>
      match selectClosestEnemyInRange tpos t.range s.enemies with
      | none => (t, s)
      | some best =>
        if best.1 = "" then (t, s)
        else
          match s.enemies.find? (fun e => e.id == best.1) with
          | none => (t, s)
          | some _ =>
            let s1 := addPoints 1 s
            let s2 := destroyEnemy best.1 s1
            ({ t with lastShotTime := now }, s2)

/-! ## Wave scheduler (source `startWave`, `resumeWave`, `spawnEnemy`, ticks) -/

/-- The spec's spawn-interval formula: `max(MIN_SPAWN_TIME, round(duration / count))`. -/
def specSpawnIntervalMs (cfg : WaveConfigEntry) : ℤ :=
  max MIN_SPAWN_TIME (jsRound ((cfg.duration : ℚ) / (cfg.count : ℚ)))

/-- Source `spawnEnemy`.  The sampled spawn point (`computeSpawnAngle` over
`Math.random`, scaled by `SPAWN_DISTANCE`) is passed in as `spawnPos`;
`baseVisible` is `isBaseVisible()`.  Silent no-op when the run is over, no wave
is active, the wave is paused, or the base is not visible. -/
def spawnEnemy (baseVisible : Bool) (spawnPos : Position2D) (s : GameState) : GameState :=
  if s.gameOver || !s.waveActive || s.wavePaused then s
  else if !baseVisible then s
  else
    match waveConfigTable.get? (s.currentWave - 1) with
    | none => s
    | some cfg =>
      { s with
        enemyIdCounter := s.enemyIdCounter + 1
        enemies := s.enemies ++
          [{ id := "enemy-" ++ toString s.enemyIdCounter
             pos := some spawnPos
             speed := cfg.baseSpeed, health := 1 }]
        spawnCount := s.spawnCount + 1
        enemiesSpawnedInWave := s.enemiesSpawnedInWave + 1 }

/-- Source `startWave` (wave-start UI timeout and the random
`spawnCenterAngle` draw elided): activate the wave, reset its spawn counter,
store its config for pause/resume, and start the spawn timer at
`max(MIN_SPAWN_TIME, Math.round(duration / count))` ms. -/
def startWave (s : GameState) : GameState :=
  if totalWaves < s.currentWave ∨ s.gameOver then s
  else
    match waveConfigTable.get? (s.currentWave - 1) with
    | none => s
    | some cfg =>
      { s with
        waveActive := true
        enemiesSpawnedInWave := 0
        wavePaused := false
        pausedWaveCompleted := false
        pausedWaveConfig := some cfg
        spawnInterval :=
          some (max MIN_SPAWN_TIME (jsRound ((cfg.duration : ℚ) / (cfg.count : ℚ)))) }

/-- Source `resumeWave`: restart the spawn timer from the stored paused-wave
config, at `max(MIN_SPAWN_TIME, Math.round(duration / count))` ms. -/
def resumeWave (s : GameState) : GameState :=
  match s.pausedWaveConfig with
  | none => s
  | some cfg =>
    if s.currentWave = 0 then s
    else
      { s with
        spawnInterval :=
          some (max MIN_SPAWN_TIME (jsRound ((cfg.duration : ℚ) / (cfg.count : ℚ)))) }

/-- Source `getStartingWaveForNewGame`. -/
def getStartingWaveForNewGame (s : GameState) : ℕ :=
  let desired := jsRound (getUpgradeCurrentValueById UpgradeId.waveSkip s.upgradeState)
  (max 1 (min (totalWaves : ℤ) desired)).toNat

/-- Source `startEnemySpawning` (the base target's `targetFound` handler). -/
def startEnemySpawning (s : GameState) : GameState :=
  if s.gameWon then s
  else if s.wavePaused ∧ 0 < s.currentWave then
    resumeWave { s with wavePaused := false, waveActive := true }
  else if s.currentWave = 0 then
    startWave { s with currentWave := getStartingWaveForNewGame s }
  else s

/-- The body of the interval callback that `startWave` registers.
`waveCompleted` is the callback's captured flag; the returned pair is the
updated flag and state.  (The `setTimeout` that later advances to the next
wave is a separate callback and is not part of this tick.) -/
def startWaveTick (baseVisible : Bool) (spawnPos : Position2D) (cfg : WaveConfigEntry)
    (waveCompleted : Bool) (s : GameState) : Bool × GameState :=
  if s.wavePaused then
    (waveCompleted, { s with spawnInterval := none, pausedWaveCompleted := waveCompleted })
  else if !s.waveActive || waveCompleted then (waveCompleted, s)
  else if s.enemiesSpawnedInWave < cfg.count then
    (waveCompleted, spawnEnemy baseVisible spawnPos s)
  else
    (true, { s with spawnInterval := none, waveActive := false, pausedWaveConfig := none })

/-! ## Tower state machine (source event handlers and per-frame movement) -/

/-- The `targetFound` handler registered by `registerTowerEventListeners`
(tracking-set bookkeeping lives in `TowerTracking`): force the tower into the
building/moving state and re-resolve its visual handles
(`setupTowerVisualsForTower`); `sphereQ`/`circleQ` say whether the child
elements were found by the queries. -/
def towerOnTargetFound (sphereQ circleQ : Bool) (t : TowerInstance) : TowerInstance :=
  { t with
    isMoving := true, lastMovementTime := 0
    homePosition := none, lastPosition := none
    sphere := sphereQ, circle := circleQ }

/-- Source `resetTowerStateForTower` (`now` is `Date.now()`). -/
def resetTowerStateForTower (now : ℤ) (t : TowerInstance) : TowerInstance :=
  { t with
    sphere := false, circle := false, movingText := false, buildRing := false
    homePosition := none, lastPosition := none, lastMovementTime := now }

/-- Source `handleTowerLostForTower` (the `targetLost` handler body): mark
moving, then reset cached state. -/
def handleTowerLostForTower (now : ℤ) (t : TowerInstance) : TowerInstance :=
  resetTowerStateForTower now { t with isMoving := true }

/-- The per-tower body of `forceTrackedTowersIntoBuildingState` (applied to
towers that are visible and tracked on restart). -/
def forceTrackedTowerIntoBuildingState (sphereQ circleQ : Bool) (t : TowerInstance) :
    TowerInstance :=
  { t with
    isMoving := true, lastMovementTime := 0
    homePosition := none, lastPosition := none, lastShotTime := 0
    sphere := sphereQ, circle := circleQ }

/-- Source `checkTowerMovementForTower`.  `currentPos` is
`getTowerPositionForTower` (the tower pose in the base's local frame, `none`
when unavailable); `circleQ` is the result of the lazy `a-circle` re-query in
the moving branch; `stabilityMs` is `towerStabilityTimeMs`.  Distance
comparisons are on squares (`> 0.3` becomes `> 9/100`, `≤ 0.1` becomes
`≤ 1/100`); when there is no previous sample the source compares
`recentMovement = 0`. -/
def checkTowerMovementForTower (stabilityMs : ℤ) (circleQ : Bool)
    (currentPos : Option Position2D) (now : ℤ) (t : TowerInstance) : TowerInstance :=
  match currentPos with
  | none => t
  | some cp =>
    match t.homePosition with
    | none =>
      -- Establish the initial home position (early return: lastPosition not updated).
      if !t.sphere || !t.circle then t
      else { t with homePosition := some cp, lastMovementTime := now }
    | some hp =>
      let distFromHomeSq := calculateDistance2DSq hp cp
      let recentSq : ℚ :=
        match t.lastPosition with
        | some lp => calculateDistance2DSq lp cp
        | none => 0
      let t1 :=
        if MOVEMENT_THRESHOLD_SQ < distFromHomeSq ∧ t.isMoving = false then
          { t with isMoving := true, lastMovementTime := 0 }
        else t
      let t2 :=
        if t1.isMoving then
          let t1 := if !t1.circle then { t1 with circle := circleQ } else t1
          if recentSq ≤ JITTER_TOLERANCE_SQ then
            let lmt := if t1.lastMovementTime = 0 then now else t1.lastMovementTime
            if stabilityMs ≤ now - lmt then
              { t1 with homePosition := some cp, isMoving := false, lastMovementTime := 0 }
            else { t1 with lastMovementTime := lmt }
          else
            if 0 < t1.lastMovementTime then { t1 with lastMovementTime := 0 } else t1
        else t1
      { t2 with lastPosition := some cp }

/-! ## Spec-level scaffolding -/

/-- Loop invariant of the `closestEnemyId`/`closestDistance` accumulation in
`checkTowerAttacksForTower`, over the prefix of enemies already scanned:
either no scanned enemy with a known position was in range, or the accumulator
holds the first scanned in-range enemy of minimal (squared) distance. -/
def SelInv (tp : Position2D) (r : ℚ) (processed : List Enemy) :
    Option (String × ℚ) → Prop
  | none => ∀ e ∈ processed, ∀ p, e.pos = some p →
      inRangeB r (calculateDistance2DSq tp p) = false
  | some best =>
      inRangeB r best.2 = true ∧
      (∃ l1 e l2, processed = l1 ++ e :: l2 ∧ e.id = best.1 ∧
        (∃ p, e.pos = some p ∧ calculateDistance2DSq tp p = best.2) ∧
        (∀ e1 ∈ l1, ∀ p1, e1.pos = some p1 →
          inRangeB r (calculateDistance2DSq tp p1) = true →
          best.2 < calculateDistance2DSq tp p1)) ∧
      (∀ e1 ∈ processed, ∀ p1, e1.pos = some p1 →
        inRangeB r (calculateDistance2DSq tp p1) = true →
        best.2 ≤ calculateDistance2DSq tp p1)

/-- A concrete baseline game state (the source's field initializers for a
fresh page load), used to instantiate the claims at concrete inputs. -/
def demoState : GameState :=
  { health := 100, points := 0, gameOver := false, gameWon := false
    enemies := [], enemyIdCounter := 0, spawnCount := 0, spawnInterval := none
    currentWave := 0, waveActive := false, wavePaused := false
    enemiesSpawnedInWave := 0, pausedWaveConfig := none, pausedWaveCompleted := false
    towerFireRateMs := 2000, towerRange := 700, towerStabilityTimeMs := 3000
    defaultBaseHealth := 100, upgradeState := fun _ => 0, towers := [] }

/-- A concrete state for the tower-count reinitialization scenario: the
tower-count track has just reached level 1 and the single pre-existing tower
instance is Active (established home position, not moving, a recorded last
shot). -/
def reinitScenarioState : GameState :=
  { demoState with
    upgradeState := fun i => if i = UpgradeId.towerCount then 1 else 0
    towers := [{ mkFreshTower 0 2000 700 with
      homePosition := some ⟨1, 2⟩
      lastShotTime := 500 }] }

/-! ## Helper lemmas -/

theorem calculateDistance2DSq_nonneg (p q : Position2D) :
    0 ≤ calculateDistance2DSq p q := by
  have h1 := mul_self_nonneg (q.x - p.x)
  have h2 := mul_self_nonneg (q.y - p.y)
  unfold calculateDistance2DSq
  linarith

/-- The embedded in-range test is the source's comparison of the real distance
against the range. -/
theorem inRangeB_iff_sqrt (r d : ℚ) :
    inRangeB r d = true ↔ Real.sqrt (d : ℝ) ≤ (r : ℝ) := by
  rw [Real.sqrt_le_iff]
  simp only [inRangeB, Bool.and_eq_true, decide_eq_true_eq]
  constructor
  · rintro ⟨h1, h2⟩
    refine ⟨by exact_mod_cast h1, ?_⟩
    rw [sq]
    exact_mod_cast h2
  · rintro ⟨h1, h2⟩
    rw [sq] at h2
    exact ⟨by exact_mod_cast h1, by exact_mod_cast h2⟩

theorem sqrt_le_sqrt_iff_ratCast {a b : ℚ} (hb : 0 ≤ b) :
    Real.sqrt (a : ℝ) ≤ Real.sqrt (b : ℝ) ↔ a ≤ b := by
  rw [Real.sqrt_le_sqrt_iff (by exact_mod_cast hb)]
  exact Rat.cast_le

theorem sqrt_lt_sqrt_iff_ratCast {a b : ℚ} (ha : 0 ≤ a) :
    Real.sqrt (a : ℝ) < Real.sqrt (b : ℝ) ↔ a < b := by
  rw [Real.sqrt_lt_sqrt_iff (by exact_mod_cast ha)]
  exact Rat.cast_lt

theorem stopEnemySpawning_enemies (b : Bool) (s : GameState) :
    (stopEnemySpawning b s).enemies = s.enemies := by
  unfold stopEnemySpawning
  split <;> rfl

theorem handleWin_enemies (s : GameState) : (handleWin s).enemies = s.enemies :=
  stopEnemySpawning_enemies false _

theorem checkWinCondition_enemies (s : GameState) :
    (checkWinCondition s).enemies = s.enemies := by
  unfold checkWinCondition
  split
  · rfl
  · split
    · rfl
    · split
      · rfl
      · split
        · rw [handleWin_enemies]
        · rfl

theorem destroyEnemy_enemies (i : String) (s : GameState) :
    (destroyEnemy i s).enemies = s.enemies.eraseP (fun e => e.id == i) := by
  unfold destroyEnemy
  rw [checkWinCondition_enemies]

theorem addPoints_enemies (n : ℚ) (s : GameState) :
    (addPoints n s).enemies = s.enemies := by
  unfold addPoints
  split <;> rfl

theorem eraseP_length_le (p : Enemy → Bool) (l : List Enemy) :
    (l.eraseP p).length ≤ l.length := by
  induction l with
  | nil => simp
  | cons a l ih =>
    by_cases h : p a
    · simp [List.eraseP_cons, h]
    · simp only [List.eraseP_cons, h, cond_false, List.length_cons]
      omega

theorem length_le_eraseP_add_one (p : Enemy → Bool) (l : List Enemy) :
    l.length ≤ (l.eraseP p).length + 1 := by
  induction l with
  | nil => simp
  | cons a l ih =>
    by_cases h : p a
    · simp [List.eraseP_cons, h]
    · simp only [List.eraseP_cons, h, cond_false, List.length_cons]
      omega

theorem applyUpgradeEffects_upgradeState (s : GameState) :
    (applyUpgradeEffects s).upgradeState = s.upgradeState := rfl

theorem initializeTowers_upgradeState (anchors : List ℕ) (s : GameState) :
    (initializeTowersFromUpgrades anchors s).upgradeState = s.upgradeState := rfl

theorem initializeTowers_health (anchors : List ℕ) (s : GameState) :
    (initializeTowersFromUpgrades anchors s).health = s.health := rfl

/-! ## Claim C2 -/

/-- Claim C2: for every wave config entry, the per-enemy spawn interval used by
both `startWave` and `resumeWave` equals
`max(MIN_SPAWN_TIME, round(duration / count))`; in particular, for the config
`{count: 5, duration: 5000}` the interval is 1000 ms. -/
theorem claim_C2 :
    (∀ (s : GameState) (cfg : WaveConfigEntry),
      s.pausedWaveConfig = some cfg → 0 < s.currentWave →
      (resumeWave s).spawnInterval = some (specSpawnIntervalMs cfg)) ∧
    (∀ (s : GameState) (cfg : WaveConfigEntry),
      s.currentWave ≤ totalWaves → s.gameOver = false →
      waveConfigTable.get? (s.currentWave - 1) = some cfg →
      (startWave s).spawnInterval = some (specSpawnIntervalMs cfg)) ∧
    specSpawnIntervalMs ⟨5, 1, 360, 5000⟩ = 1000 := by
  refine ⟨?_, ?_, ?_⟩
  · intro s cfg hcfg hw
    unfold resumeWave
    rw [hcfg]
    simp only [Nat.pos_iff_ne_zero.mp hw, if_false]
    rfl
  · intro s cfg hle hgo hget
    unfold startWave
    rw [if_neg (by simp [hgo]; omega), hget]
    rfl
  · norm_num [specSpawnIntervalMs, jsRound, MIN_SPAWN_TIME]

/-- Concrete instantiation of `claim_C2` (paused wave with the
`{count: 5, duration: 5000}` config resumes at a 1000 ms cadence). -/
theorem claim_C2_witness :
    (resumeWave { demoState with
        pausedWaveConfig := some ⟨5, 1, 360, 5000⟩
        currentWave := 1 }).spawnInterval = some 1000 := by
  have h := claim_C2.1
      { demoState with pausedWaveConfig := some ⟨5, 1, 360, 5000⟩, currentWave := 1 }
      ⟨5, 1, 360, 5000⟩ rfl (by norm_num)
  rw [h, claim_C2.2.2]

/-! ## Claim C3 -/

/-- Claim C3: pausing an active wave (base-tracking loss runs
`stopEnemySpawning(false)`, cancelling the spawn timer and setting
`wavePaused`) followed by resuming (base re-found runs `startEnemySpawning`)
leaves `enemiesSpawnedInWave` exactly unchanged at the moment of resume, and
the resumed timer runs at the interval derived from the stored paused-wave
config. -/
theorem claim_C3 (s : GameState) (cfg : WaveConfigEntry)
    (hcfg : s.pausedWaveConfig = some cfg) (hw : 0 < s.currentWave)
    (hwon : s.gameWon = false) :
    (startEnemySpawning (stopEnemySpawning false s)).enemiesSpawnedInWave =
        s.enemiesSpawnedInWave ∧
    (stopEnemySpawning false s).enemiesSpawnedInWave = s.enemiesSpawnedInWave ∧
    (stopEnemySpawning false s).wavePaused = true ∧
    (stopEnemySpawning false s).spawnInterval = none ∧
    (startEnemySpawning (stopEnemySpawning false s)).spawnInterval =
        some (specSpawnIntervalMs cfg) := by
  have hne := Nat.pos_iff_ne_zero.mp hw
  refine ⟨?_, rfl, rfl, rfl, ?_⟩ <;>
    simp [stopEnemySpawning, startEnemySpawning, resumeWave, hwon, hcfg, hw, hne,
      specSpawnIntervalMs]

/-- Concrete instantiation of `claim_C3`: a mid-wave state (wave 1, three
enemies already spawned) keeps its spawn progress across pause/resume. -/
theorem claim_C3_witness :
    (startEnemySpawning (stopEnemySpawning false
        { demoState with
            currentWave := 1
            waveActive := true
            enemiesSpawnedInWave := 3
            pausedWaveConfig := some ⟨5, 1/2, 10, 6000⟩ })).enemiesSpawnedInWave = 3 :=
  (claim_C3
    { demoState with
        currentWave := 1
        waveActive := true
        enemiesSpawnedInWave := 3
        pausedWaveConfig := some ⟨5, 1/2, 10, 6000⟩ }
    ⟨5, 1/2, 10, 6000⟩ rfl (by norm_num) rfl).1

/-! ## Claim C5 -/

/-- Claim C5: `spawnEnemy` is a silent no-op (no thrown error is modelled; the
function is total) whenever the base anchor is not visible or the run is over —
in particular `spawnCount`, `enemiesSpawnedInWave`, `enemyIdCounter` and the
enemy collection are unchanged — and the wave's spawn-timer callback does not
flip the wave to its completed state while `enemiesSpawnedInWave` is still
below the configured count. -/
theorem claim_C5 (bv : Bool) (sp : Position2D) (s : GameState)
    (cfg : WaveConfigEntry) (wc : Bool)
    (h : bv = false ∨ s.gameOver = true) :
    spawnEnemy bv sp s = s ∧
    (s.enemiesSpawnedInWave < cfg.count →
      (startWaveTick bv sp cfg wc s).1 = wc) := by
  constructor
  · unfold spawnEnemy
    rcases h with h | h
    · subst h
      split
      · rfl
      · rfl
    · rw [if_pos (by simp [h])]
  · intro hlt
    unfold startWaveTick
    split
    · rfl
    · split
      · rfl
      · rfl

/-- Concrete instantiation of `claim_C5`: spawning into an active wave with the
base not visible changes nothing, and a tick at 3 of 5 spawns does not complete
the wave. -/
theorem claim_C5_witness :
    spawnEnemy false ⟨5, 0⟩
      { demoState with currentWave := 1, waveActive := true, enemiesSpawnedInWave := 3 } =
      { demoState with currentWave := 1, waveActive := true, enemiesSpawnedInWave := 3 } ∧
    (startWaveTick false ⟨5, 0⟩ ⟨5, 1/2, 10, 6000⟩ false
      { demoState with currentWave := 1, waveActive := true, enemiesSpawnedInWave := 3 }).1
      = false := by
  have h := claim_C5 false ⟨5, 0⟩
    { demoState with currentWave := 1, waveActive := true, enemiesSpawnedInWave := 3 }
    ⟨5, 1/2, 10, 6000⟩ false (Or.inl rfl)
  exact ⟨h.1, h.2 (by norm_num)⟩

/-! ## Claim C8 -/

/-- Claim C8: a purchase attempted with `points < cost` is rejected atomically —
the state is returned unchanged (in particular the balance, the ledger and
every tower's cached `range`/`fireRateMs`), and no error is raised (the
function is total; the source only logs a warning). -/
theorem claim_C8 (anchors : List ℕ) (i : UpgradeId) (cost : ℤ) (s : GameState)
    (h : s.points < cost) :
    purchaseUpgrade anchors i cost s = s ∧
    (purchaseUpgrade anchors i cost s).points = s.points ∧
    (purchaseUpgrade anchors i cost s).upgradeState = s.upgradeState ∧
    (purchaseUpgrade anchors i cost s).towers = s.towers := by
  have h1 : purchaseUpgrade anchors i cost s = s := by
    unfold purchaseUpgrade
    rw [if_pos h]
  exact ⟨h1, by rw [h1], by rw [h1], by rw [h1]⟩

/-- Concrete instantiation of `claim_C8`: buying the 50-point tower-count
upgrade with 0 points changes nothing. -/
theorem claim_C8_witness :
    purchaseUpgrade [0, 1, 2] UpgradeId.towerCount 50 demoState = demoState :=
  (claim_C8 [0, 1, 2] UpgradeId.towerCount 50 demoState (by norm_num [demoState])).1

/-! ## Claim C10 -/

/-- Claim C10: every run of the upgrade-effect application pipeline sets the
current health to the base-health track's current value — a full restore to the
derived maximum, whatever the health was before — and consequently every
successful purchase (which runs the pipeline) leaves health at the base-health
track's value under the post-purchase ledger, even when the purchased track is
a different one. -/
theorem claim_C10 (anchors : List ℕ) (i : UpgradeId) (cost : ℤ) (s : GameState) :
    (applyUpgradeEffects s).health =
        getUpgradeCurrentValueById UpgradeId.baseHealth s.upgradeState ∧
    (cost ≤ s.points →
      (purchaseUpgrade anchors i cost s).health =
        getUpgradeCurrentValueById UpgradeId.baseHealth
          (purchaseUpgrade anchors i cost s).upgradeState) := by
  constructor
  · rfl
  · intro hc
    unfold purchaseUpgrade
    rw [if_neg (not_lt.mpr hc)]
    split
    · rfl
    · rfl

/-- Concrete instantiation of `claim_C10`: purchasing the 5-point range upgrade
from a damaged state (health 40) restores health to the base-health track's
value (level 0: 100). -/
theorem claim_C10_witness :
    (purchaseUpgrade [0] UpgradeId.range 5
        { demoState with health := 40, points := 10 }).health =
      getUpgradeCurrentValueById UpgradeId.baseHealth
        (purchaseUpgrade [0] UpgradeId.range 5
          { demoState with health := 40, points := 10 }).upgradeState :=
  (claim_C10 [0] UpgradeId.range 5
    { demoState with health := 40, points := 10 }).2 (by norm_num)

/-! ## Claim C4 -/

/-- With positive recorded loss timestamps (all real `Date.now()` values are
positive, so the JavaScript-falsy `lostTime == 0` edge never occurs),
`isTowerVisible` holds exactly when the tower is tracked, its object is
visible, and any recorded loss is at least the grace period old. -/
theorem isTowerVisible_iff (tr : TowerTracking) (now : ℤ)
    (hlost : ∀ lt, tr.lostTime = some lt → 0 < lt) :
    isTowerVisible tr now = true ↔
      (tr.tracked = true ∧ tr.objectVisible = true ∧
        (∀ lt, tr.lostTime = some lt → TOWER_LOST_GRACE_PERIOD ≤ now - lt)) := by
  unfold isTowerVisible
  cases htl : tr.lostTime with
  | none => simp
  | some lt =>
    have hpos := hlost lt htl
    simp only [Bool.and_eq_true, Bool.not_eq_true', Bool.and_eq_false_iff,
      decide_eq_false_iff_not, not_not, Option.some.injEq]
    constructor
    · rintro ⟨⟨htr, hov⟩, hgr⟩
      refine ⟨htr, hov, ?_⟩
      rintro lt' rfl
      rcases hgr with h0 | hge
      · exact absurd h0 hpos.ne'
      · omega
    · rintro ⟨htr, hov, hgr⟩
      exact ⟨⟨htr, hov⟩, Or.inr (by have := hgr lt rfl; omega)⟩

/-- Claim C4: a tower can fire (the readiness-and-cooldown gate of
`checkTowerAttacksForTower` passes) exactly when it is tracked and currently
visible, outside the post-loss grace period, has an established home position,
is not moving/building, and its cooldown has elapsed; when the gate fails, the
attack step changes nothing.  The loss timestamps are assumed positive (they
are `Date.now()` values; `0` would be JavaScript-falsy and skip the grace
check). -/
theorem claim_C4 (tr : TowerTracking) (twp : Option Position2D) (now : ℤ)
    (t : TowerInstance) (s : GameState)
    (hlost : ∀ lt, tr.lostTime = some lt → 0 < lt) :
    ((isTowerReadyToAttack tr now t &&
        decide (t.fireRateMs ≤ ((now - t.lastShotTime : ℤ) : ℚ))) = true ↔
      (tr.tracked = true ∧ tr.objectVisible = true ∧
        (∀ lt, tr.lostTime = some lt → TOWER_LOST_GRACE_PERIOD ≤ now - lt) ∧
        t.homePosition ≠ none ∧ t.isMoving = false ∧
        t.fireRateMs ≤ ((now - t.lastShotTime : ℤ) : ℚ))) ∧
    ((isTowerReadyToAttack tr now t &&
        decide (t.fireRateMs ≤ ((now - t.lastShotTime : ℤ) : ℚ))) = false →
      checkTowerAttacksForTower tr twp now t s = (t, s)) := by
  constructor
  · simp only [isTowerReadyToAttack, Bool.and_eq_true, Bool.not_eq_true',
      decide_eq_true_eq, Option.isSome_iff_ne_none, isTowerVisible_iff tr now hlost]
    tauto
  · intro hgate
    by_cases hA : isTowerReadyToAttack tr now t = true
    · rw [hA] at hgate
      simp only [Bool.true_and, decide_eq_false_iff_not] at hgate
      unfold checkTowerAttacksForTower
      rw [if_neg (by simp [hA]), if_pos (lt_of_not_le hgate)]
    · have hA' : isTowerReadyToAttack tr now t = false := by
        cases hb : isTowerReadyToAttack tr now t
        · rfl
        · exact absurd hb hA
      unfold checkTowerAttacksForTower
      rw [if_pos (by simp [hA'])]

/-- Concrete instantiation of `claim_C4`: a tracked, visible, settled tower
whose last loss was 1000 ms ago and whose 2000 ms cooldown has elapsed passes
the gate. -/
theorem claim_C4_witness :
    (isTowerReadyToAttack ⟨true, true, some 500⟩ 2500
        { mkFreshTower 0 2000 700 with homePosition := some ⟨0, 0⟩ } &&
      decide (({ mkFreshTower 0 2000 700 with homePosition := some ⟨0, 0⟩ } :
          TowerInstance).fireRateMs ≤
        ((2500 - ({ mkFreshTower 0 2000 700 with homePosition := some ⟨0, 0⟩ } :
          TowerInstance).lastShotTime : ℤ) : ℚ))) = true := by
  rw [(claim_C4 ⟨true, true, some 500⟩ none 2500
      { mkFreshTower 0 2000 700 with homePosition := some ⟨0, 0⟩ } demoState
      (by rintro lt ⟨rfl⟩; norm_num)).1]
  refine ⟨rfl, rfl, ?_, by simp [mkFreshTower], rfl, ?_⟩
  · rintro lt ⟨rfl⟩
    norm_num [TOWER_LOST_GRACE_PERIOD]
  · norm_num [mkFreshTower]

/-! ## Claim C7 -/

theorem upgradeDefs_levels_length_pos (i : UpgradeId) :
    0 < (upgradeDefs i).levels.length := by
  cases i <;> simp [upgradeDefs]

theorem purchaseUpgrade_upgradeState (anchors : List ℕ) (i : UpgradeId) (cost : ℤ)
    (s : GameState) (h : cost ≤ s.points) :
    (purchaseUpgrade anchors i cost s).upgradeState =
      fun j => if j = i then s.upgradeState j + 1 else s.upgradeState j := by
  unfold purchaseUpgrade
  rw [if_neg (not_lt.mpr h)]
  split
  · rfl
  · rfl

/-- Claim C7: the stored level index stays within `[0, levels.length - 1]`
across the program's purchase path, and a purchase attempted at the last level
is disallowed — the level is not incremented and the next-cost is the `0`
("max") sentinel.  (The `0 ≤ level` half is inherent in the `ℕ`-valued
embedding; the source's level values are likewise non-negative.) -/
theorem claim_C7 (anchors : List ℕ) (i : UpgradeId) (s : GameState)
    (h : s.upgradeState i ≤ (upgradeDefs i).levels.length - 1) :
    (attemptPurchase anchors i s).upgradeState i ≤ (upgradeDefs i).levels.length - 1 ∧
    (s.upgradeState i = (upgradeDefs i).levels.length - 1 →
      (attemptPurchase anchors i s).upgradeState i = s.upgradeState i ∧
      getUpgradeNextCost s.upgradeState i = 0) := by
  have hlen := upgradeDefs_levels_length_pos i
  unfold attemptPurchase
  by_cases hd : ((upgradeDefs i).levels.length - 1 ≤ s.upgradeState i ∨
      s.points < getUpgradeNextCost s.upgradeState i)
  · rw [if_pos hd]
    refine ⟨h, fun hmax => ⟨rfl, ?_⟩⟩
    simp only [getUpgradeNextCost]
    rw [if_pos (by omega)]
  · rw [if_neg hd]
    push_neg at hd
    obtain ⟨hd1, hd2⟩ := hd
    rw [purchaseUpgrade_upgradeState anchors i _ s hd2]
    constructor
    · simp only [eq_self_iff_true, if_true]
      omega
    · intro hmax
      exact absurd hmax (by omega)

/-- Concrete instantiation of `claim_C7`: attempting a purchase on the
base-health track at its last level (index 4 of 5 levels) leaves the level at 4
and reports the max sentinel cost 0. -/
theorem claim_C7_witness :
    (attemptPurchase [0] UpgradeId.baseHealth
        { demoState with upgradeState := fun _ => 4 }).upgradeState UpgradeId.baseHealth = 4 ∧
    getUpgradeNextCost (fun _ => 4) UpgradeId.baseHealth = 0 := by
  have h := (claim_C7 [0] UpgradeId.baseHealth
      { demoState with upgradeState := fun _ => 4 }
      (by simp [upgradeDefs])).2 (by simp [upgradeDefs])
  exact h

/-! ## Claim C6 -/

/-- Once a home position is established, the per-frame movement check never
clears it: it only re-adopts a (present) position on stabilization. -/
theorem checkTowerMovement_home_isSome (stab : ℤ) (cq : Bool) (p : Position2D)
    (now : ℤ) (t : TowerInstance) (hp0 : Position2D)
    (hh : t.homePosition = some hp0) :
    ∃ q, (checkTowerMovementForTower stab cq (some p) now t).homePosition = some q := by
  simp only [checkTowerMovementForTower, hh]
  split_ifs <;>
    first
      | exact ⟨_, rfl⟩
      | (refine ⟨hp0, ?_⟩
         simp [hh])

/-- Claim C6 counterexample: the claim says every operation that sets
`homePosition` to null — including creation and reinitialization — leaves
`isMoving` true.  But `initializeTowersFromUpgrades` (source lines 568-600)
builds fresh instances, and resets re-used instances, with
`homePosition: null` and `isMoving: false` simultaneously; such a tower is in
the game's tower list from startup (before any `targetFound`), so the claimed
"for every reachable state" invariant fails there. -/
theorem claim_C6_counterexample :
    (mkFreshTower 0 2000 700).homePosition = none ∧
    (mkFreshTower 0 2000 700).isMoving = false ∧
    (initializeTowersFromUpgrades [0] demoState).towers =
      [mkFreshTower 0 2000 700] :=
  ⟨rfl, rfl, rfl⟩

/-- Claim C6 (amended): the invariant `homePosition = null → isMoving = true`
is established by the tracking-event operations (`targetFound`, `targetLost`,
the forced rebuild on restart) and preserved by the per-frame movement check
(which sets `isMoving` to false only together with adopting a non-null home);
however, creation and in-place reinitialization (`initializeTowersFromUpgrades`)
set `homePosition = null` with `isMoving = false`, so the invariant holds for
every reachable state only from the first `targetFound` onward (such a freshly
(re)initialized tower still cannot attack, because attack readiness separately
requires a non-null home position). -/
theorem claim_C6_amended (sq cq : Bool) (now stab : ℤ) (cp : Option Position2D)
    (t : TowerInstance) (a : ℕ) (fr rg : ℚ) :
    ((towerOnTargetFound sq cq t).homePosition = none ∧
      (towerOnTargetFound sq cq t).isMoving = true) ∧
    ((handleTowerLostForTower now t).homePosition = none ∧
      (handleTowerLostForTower now t).isMoving = true) ∧
    ((forceTrackedTowerIntoBuildingState sq cq t).homePosition = none ∧
      (forceTrackedTowerIntoBuildingState sq cq t).isMoving = true) ∧
    ((t.homePosition = none → t.isMoving = true) →
      (checkTowerMovementForTower stab cq cp now t).homePosition = none →
      (checkTowerMovementForTower stab cq cp now t).isMoving = true) ∧
    ((mkFreshTower a fr rg).homePosition = none ∧
      (mkFreshTower a fr rg).isMoving = false ∧
      (resetExistingTower fr rg t).homePosition = none ∧
      (resetExistingTower fr rg t).isMoving = false) := by
  refine ⟨⟨rfl, rfl⟩, ⟨rfl, rfl⟩, ⟨rfl, rfl⟩, ?_, rfl, rfl, rfl, rfl⟩
  intro hinv
  cases cp with
  | none => exact hinv
  | some p =>
    cases hh : t.homePosition with
    | none =>
      have hred : checkTowerMovementForTower stab cq (some p) now t =
          (if !t.sphere || !t.circle then t
           else { t with homePosition := some p, lastMovementTime := now }) := by
        simp only [checkTowerMovementForTower, hh]
      rw [hred]
      split
      · intro _
        exact hinv hh
      · intro hres
        simp at hres
    | some hp =>
      intro hres
      obtain ⟨q, hq⟩ := checkTowerMovement_home_isSome stab cq p now t hp hh
      rw [hq] at hres
      exact absurd hres (by simp)

/-- Concrete instantiation of `claim_C6_amended`: a building tower with no
home and `isMoving = true` keeps the invariant across a frame with no pose. -/
theorem claim_C6_witness :
    (checkTowerMovementForTower 3000 true none 0
        { mkFreshTower 0 2000 700 with isMoving := true }).isMoving = true :=
  (claim_C6_amended true true 0 3000 none
      { mkFreshTower 0 2000 700 with isMoving := true } 0 2000 700).2.2.2.1
    (fun _ => rfl) rfl

/-! ## Claim C1 -/

/-- One scan step preserves the selection invariant. -/
theorem selStep_inv (tp : Position2D) (r : ℚ) (processed : List Enemy)
    (acc : Option (String × ℚ)) (e : Enemy) (h : SelInv tp r processed acc) :
    SelInv tp r (processed ++ [e]) (selStep tp r acc e) := by
  cases he : e.pos with
  | none =>
    have hstep : selStep tp r acc e = acc := by
      simp only [selStep, he]
    rw [hstep]
    cases acc with
    | none =>
      simp only [SelInv] at h ⊢
      intro e1 he1 p hp
      rcases List.mem_append.mp he1 with h1 | h1
      · exact h e1 h1 p hp
      · rw [List.mem_singleton.mp h1] at hp
        rw [he] at hp
        cases hp
    | some best =>
      simp only [SelInv] at h ⊢
      obtain ⟨hin, ⟨l1, w, l2, hdec, hid, hw, hstrict⟩, hmin⟩ := h
      refine ⟨hin, ⟨l1, w, l2 ++ [e], by rw [hdec]; simp, hid, hw, hstrict⟩, ?_⟩
      intro e1 he1 p1 hp1 hr1
      rcases List.mem_append.mp he1 with h1 | h1
      · exact hmin e1 h1 p1 hp1 hr1
      · rw [List.mem_singleton.mp h1] at hp1
        rw [he] at hp1
        cases hp1
  | some p =>
    cases acc with
    | none =>
      by_cases hr : inRangeB r (calculateDistance2DSq tp p) = true
      · have hstep : selStep tp r none e = some (e.id, calculateDistance2DSq tp p) := by
          simp only [selStep, he]
          rw [if_pos hr]
        rw [hstep]
        simp only [SelInv] at h ⊢
        refine ⟨hr, ⟨processed, e, [], by simp, rfl, ⟨p, he, rfl⟩, ?_⟩, ?_⟩
        · intro e1 he1 p1 hp1 hr1
          rw [h e1 he1 p1 hp1] at hr1
          cases hr1
        · intro e1 he1 p1 hp1 hr1
          rcases List.mem_append.mp he1 with h1 | h1
          · rw [h e1 h1 p1 hp1] at hr1
            cases hr1
          · rw [List.mem_singleton.mp h1] at hp1
            rw [he] at hp1
            obtain rfl := Option.some.inj hp1
            exact le_refl _
      · have hstep : selStep tp r none e = none := by
          simp only [selStep, he]
          rw [if_neg hr]
        rw [hstep]
        simp only [SelInv] at h ⊢
        intro e1 he1 p1 hp1
        rcases List.mem_append.mp he1 with h1 | h1
        · exact h e1 h1 p1 hp1
        · rw [List.mem_singleton.mp h1] at hp1
          rw [he] at hp1
          obtain rfl := Option.some.inj hp1
          exact Bool.eq_false_iff.mpr hr
    | some best =>
      simp only [SelInv] at h
      obtain ⟨hin, ⟨l1, w, l2, hdec, hid, hw, hstrict⟩, hmin⟩ := h
      by_cases hc : (inRangeB r (calculateDistance2DSq tp p) &&
          decide (calculateDistance2DSq tp p < best.2)) = true
      · have hstep : selStep tp r (some best) e =
            some (e.id, calculateDistance2DSq tp p) := by
          simp only [selStep, he]
          rw [if_pos hc]
        rw [hstep]
        have hc' : inRangeB r (calculateDistance2DSq tp p) = true ∧
            decide (calculateDistance2DSq tp p < best.2) = true := by
          simpa using hc
        obtain ⟨hr, hltb⟩ := hc'
        have hlt : calculateDistance2DSq tp p < best.2 := of_decide_eq_true hltb
        simp only [SelInv]
        refine ⟨hr, ⟨processed, e, [], by simp, rfl, ⟨p, he, rfl⟩, ?_⟩, ?_⟩
        · intro e1 he1 p1 hp1 hr1
          exact lt_of_lt_of_le hlt (hmin e1 he1 p1 hp1 hr1)
        · intro e1 he1 p1 hp1 hr1
          rcases List.mem_append.mp he1 with h1 | h1
          · exact le_of_lt (lt_of_lt_of_le hlt (hmin e1 h1 p1 hp1 hr1))
          · rw [List.mem_singleton.mp h1] at hp1
            rw [he] at hp1
            obtain rfl := Option.some.inj hp1
            exact le_refl _
      · have hstep : selStep tp r (some best) e = some best := by
          simp only [selStep, he]
          rw [if_neg hc]
        rw [hstep]
        simp only [SelInv]
        refine ⟨hin, ⟨l1, w, l2 ++ [e], by rw [hdec]; simp, hid, hw, hstrict⟩, ?_⟩
        intro e1 he1 p1 hp1 hr1
        rcases List.mem_append.mp he1 with h1 | h1
        · exact hmin e1 h1 p1 hp1 hr1
        · rw [List.mem_singleton.mp h1] at hp1
          rw [he] at hp1
          obtain rfl := Option.some.inj hp1
          refine le_of_not_lt (fun hlt => hc ?_)
          rw [hr1, decide_eq_true hlt]
          rfl

/-- The selection invariant carries through the whole fold. -/
theorem selInv_foldl (tp : Position2D) (r : ℚ) (l : List Enemy) :
    ∀ (processed : List Enemy) (acc : Option (String × ℚ)),
      SelInv tp r processed acc →
      SelInv tp r (processed ++ l) (l.foldl (selStep tp r) acc) := by
  induction l with
  | nil =>
    intro processed acc h
    simpa using h
  | cons e l ih =>
    intro processed acc h
    have h2 := ih (processed ++ [e]) (selStep tp r acc e) (selStep_inv tp r processed acc e h)
    simpa [List.append_assoc] using h2

/-- The result of `selectClosestEnemyInRange` satisfies the selection
invariant over the full enemy list. -/
theorem selectClosest_inv (tp : Position2D) (r : ℚ) (es : List Enemy) :
    SelInv tp r es (selectClosestEnemyInRange tp r es) := by
  have h0 : SelInv tp r [] none := by
    simp only [SelInv]
    intro e he
    simp at he
  simpa [selectClosestEnemyInRange] using selInv_foldl tp r es [] none h0

/-- The attack step either leaves the enemy collection unchanged or removes
exactly the selected enemy. -/
theorem checkTowerAttacks_enemies_cases (tr : TowerTracking) (twp : Option Position2D)
    (now : ℤ) (t : TowerInstance) (s : GameState) :
    (checkTowerAttacksForTower tr twp now t s).2.enemies = s.enemies ∨
    ∃ cid, (checkTowerAttacksForTower tr twp now t s).2.enemies =
      s.enemies.eraseP (fun e => e.id == cid) := by
  unfold checkTowerAttacksForTower
  split
  · left; rfl
  · split
    · left; rfl
    · split
      · left; rfl
      · split
        · left; rfl
        · split
          · left; rfl
          · split
            · left; rfl
            · right
              simp only [destroyEnemy_enemies, addPoints_enemies]
              exact ⟨_, rfl⟩

/-- Claim C1: whenever the targeting scan of `checkTowerAttacksForTower`
selects an enemy, that enemy is in the list, its straight-line distance
(`Math.sqrt` of the squared distance) is within `tower.range`, it minimizes
that distance among all in-range enemies (enemies beyond `range` are never
selected, however close they rank), and it is the first enemy in iteration
order achieving the minimum (every earlier in-range enemy is strictly
farther); when no enemy is in range, nothing is selected; and the full attack
step destroys at most one enemy per call. -/
theorem claim_C1 (tp : Position2D) (r : ℚ) (es : List Enemy) :
    (∀ cid d, selectClosestEnemyInRange tp r es = some (cid, d) →
      ∃ l1 e l2, es = l1 ++ e :: l2 ∧ e.id = cid ∧
        (∃ p, e.pos = some p ∧ calculateDistance2DSq tp p = d) ∧
        Real.sqrt (d : ℝ) ≤ (r : ℝ) ∧
        (∀ e1 ∈ es, ∀ p1, e1.pos = some p1 →
          Real.sqrt ((calculateDistance2DSq tp p1 : ℚ) : ℝ) ≤ (r : ℝ) →
          Real.sqrt (d : ℝ) ≤ Real.sqrt ((calculateDistance2DSq tp p1 : ℚ) : ℝ)) ∧
        (∀ e1 ∈ l1, ∀ p1, e1.pos = some p1 →
          Real.sqrt ((calculateDistance2DSq tp p1 : ℚ) : ℝ) ≤ (r : ℝ) →
          Real.sqrt (d : ℝ) < Real.sqrt ((calculateDistance2DSq tp p1 : ℚ) : ℝ))) ∧
    (selectClosestEnemyInRange tp r es = none →
      ∀ e ∈ es, ∀ p, e.pos = some p →
        ¬(Real.sqrt ((calculateDistance2DSq tp p : ℚ) : ℝ) ≤ (r : ℝ))) ∧
    (∀ (tr : TowerTracking) (twp : Option Position2D) (now : ℤ)
        (t : TowerInstance) (s : GameState), s.enemies = es →
      (checkTowerAttacksForTower tr twp now t s).2.enemies.length ≤ es.length ∧
      es.length ≤ (checkTowerAttacksForTower tr twp now t s).2.enemies.length + 1) := by
  have hinv := selectClosest_inv tp r es
  refine ⟨?_, ?_, ?_⟩
  · intro cid d hsel
    rw [hsel] at hinv
    simp only [SelInv] at hinv
    obtain ⟨hin, ⟨l1, e, l2, hdec, hid, ⟨p, hp, hdsq⟩, hstrict⟩, hmin⟩ := hinv
    have hd0 : 0 ≤ d := hdsq ▸ calculateDistance2DSq_nonneg tp p
    refine ⟨l1, e, l2, hdec, hid, ⟨p, hp, hdsq⟩, (inRangeB_iff_sqrt r d).mp hin, ?_, ?_⟩
    · intro e1 he1 p1 hp1 hr1
      have hle := hmin e1 he1 p1 hp1 ((inRangeB_iff_sqrt _ _).mpr hr1)
      exact Real.sqrt_le_sqrt (by exact_mod_cast hle)
    · intro e1 he1 p1 hp1 hr1
      have hl := hstrict e1 he1 p1 hp1 ((inRangeB_iff_sqrt _ _).mpr hr1)
      exact (sqrt_lt_sqrt_iff_ratCast hd0).mpr hl
  · intro hsel e he p hp hsq
    rw [hsel] at hinv
    simp only [SelInv] at hinv
    have hfalse := hinv e he p hp
    rw [(inRangeB_iff_sqrt _ _).mpr hsq] at hfalse
    cases hfalse
  · intro tr twp now t s hse
    subst hse
    rcases checkTowerAttacks_enemies_cases tr twp now t s with hcase | ⟨cid, hcase⟩
    · rw [hcase]
      omega
    · rw [hcase]
      exact ⟨eraseP_length_le _ _, length_le_eraseP_add_one _ _⟩

/-- Concrete instantiation of `claim_C1`: with the tower at the origin and
range 5, among enemies at distances 5 (id "a"), 2 (id "b") and one with no
known position (id "c"), the scan selects "b" (squared distance 4), and its
real distance `√4` is within range 5. -/
theorem claim_C1_witness :
    Real.sqrt ((4 : ℚ) : ℝ) ≤ (((5 : ℚ) : ℚ) : ℝ) := by
  obtain ⟨l1, e, l2, hdec, hid, ⟨p, hp, hdsq⟩, hle, hmin, hstrict⟩ :=
    (claim_C1 ⟨0, 0⟩ 5
        [⟨"a", some ⟨3, 4⟩, 1, 1⟩, ⟨"b", some ⟨0, 2⟩, 1, 1⟩, ⟨"c", none, 1, 1⟩]).1
      "b" 4
      (by norm_num [selectClosestEnemyInRange, selStep, inRangeB, calculateDistance2DSq])
  exact hle

/-! ## Claim C9 -/

/-- With the tower-count track at level 1, reinitialization over anchors
`a0 :: a1 :: rest` (with a single existing instance bound to `a0`) yields
exactly the reset of that instance followed by a fresh instance for `a1`. -/
theorem applyUpgradeEffects_towers_singleton (s : GameState) (t : TowerInstance)
    (h : s.towers = [t]) :
    ∃ t2, (applyUpgradeEffects s).towers = [t2] ∧ t2.target = t.target := by
  have hmap : (applyUpgradeEffects s).towers =
      [{ t with
          range := TOWER_BASE_RANGE *
            getUpgradeCurrentValueById UpgradeId.range s.upgradeState
          fireRateMs := getUpgradeCurrentValueById UpgradeId.fireRate s.upgradeState }] := by
    simp [applyUpgradeEffects, h]
  exact ⟨_, hmap, rfl⟩

theorem initializeTowers_two (a0 a1 : ℕ) (rest : List ℕ) (sI : GameState)
    (tp' : TowerInstance)
    (hlev1 : sI.upgradeState UpgradeId.towerCount = 1)
    (hne : a0 ≠ a1)
    (htw : sI.towers = [tp'])
    (htg : tp'.target = a0) :
    (initializeTowersFromUpgrades (a0 :: a1 :: rest) sI).towers =
      [resetExistingTower sI.towerFireRateMs sI.towerRange tp',
       mkFreshTower a1 sI.towerFireRateMs sI.towerRange] := by
  simp only [initializeTowersFromUpgrades, hlev1, htw]
  norm_num [List.take, List.find?, htg, beq_eq_false_iff_ne.mpr hne]

/-- Claim C9 counterexample: the claim says the pre-existing Active instance
"retains its accumulated state" and "is not reset ... with a null home
position" across the reinitialization; but `initializeTowersFromUpgrades`
resets the reused instance in place (source lines 570-583): its established
home position becomes null, `isMoving` false and `lastShotTime` 0. -/
theorem claim_C9_counterexample :
    reinitScenarioState.towers.map TowerInstance.homePosition = [some ⟨1, 2⟩] ∧
    reinitScenarioState.towers.map TowerInstance.isMoving = [false] ∧
    reinitScenarioState.towers.map TowerInstance.lastShotTime = [500] ∧
    (initializeTowersFromUpgrades [0, 1] reinitScenarioState).towers.length = 2 ∧
    (initializeTowersFromUpgrades [0, 1] reinitScenarioState).towers.map
      TowerInstance.homePosition = [none, none] ∧
    (initializeTowersFromUpgrades [0, 1] reinitScenarioState).towers.map
      TowerInstance.lastShotTime = [0, 0] :=
  ⟨rfl, rfl, rfl, rfl, rfl, rfl⟩

/-- Claim C9 (amended): purchasing the tower-count upgrade from level 0 to
level 1 (cost 50, given at least two anchors and enough points) immediately
reinitializes the tower list to exactly two instances bound to the first two
anchors in document order; the instance for the already-present anchor is
reused (same `target`, so the idempotent listener registration stays valid)
but its per-run state is reset — `homePosition` null, `isMoving` false,
`lastShotTime` 0 — with `range`/`fireRateMs` re-propagated from the
post-purchase upgrade values, rather than retaining its accumulated Active
state as the original claim asserted. -/
theorem claim_C9_amended (a0 a1 : ℕ) (rest : List ℕ) (s : GameState)
    (t0 : TowerInstance)
    (hlev : s.upgradeState UpgradeId.towerCount = 0)
    (hpts : 50 ≤ s.points)
    (hne : a0 ≠ a1)
    (htw : s.towers = [t0])
    (htg : t0.target = a0) :
    (attemptPurchase (a0 :: a1 :: rest) UpgradeId.towerCount s).upgradeState
        UpgradeId.towerCount = 1 ∧
    (attemptPurchase (a0 :: a1 :: rest) UpgradeId.towerCount s).towers.length = 2 ∧
    (attemptPurchase (a0 :: a1 :: rest) UpgradeId.towerCount s).towers.map
        TowerInstance.target = [a0, a1] ∧
    (∀ t' ∈ (attemptPurchase (a0 :: a1 :: rest) UpgradeId.towerCount s).towers,
      t'.homePosition = none ∧ t'.isMoving = false ∧ t'.lastShotTime = 0 ∧
      t'.fireRateMs =
        (attemptPurchase (a0 :: a1 :: rest) UpgradeId.towerCount s).towerFireRateMs ∧
      t'.range =
        (attemptPurchase (a0 :: a1 :: rest) UpgradeId.towerCount s).towerRange) := by
  have hcost : getUpgradeNextCost s.upgradeState UpgradeId.towerCount = 50 := by
    simp [getUpgradeNextCost, upgradeDefs, hlev]
  have hstate : attemptPurchase (a0 :: a1 :: rest) UpgradeId.towerCount s =
      initializeTowersFromUpgrades (a0 :: a1 :: rest)
        (applyUpgradeEffects (applyUpgradeEffects
          { s with
            points := s.points - 50
            upgradeState := fun j => if j = UpgradeId.towerCount
              then s.upgradeState j + 1 else s.upgradeState j })) := by
    simp only [attemptPurchase, hcost]
    rw [if_neg (by simp only [upgradeDefs, hlev, List.length_cons, List.length_nil]; omega)]
    simp only [purchaseUpgrade]
    rw [if_neg (by omega)]
    rfl
  rw [hstate]
  have hkey : ∀ sI : GameState,
      sI.upgradeState UpgradeId.towerCount = 1 →
      (∃ tp', sI.towers = [tp'] ∧ tp'.target = a0) →
      (initializeTowersFromUpgrades (a0 :: a1 :: rest) sI).upgradeState
          UpgradeId.towerCount = 1 ∧
      (initializeTowersFromUpgrades (a0 :: a1 :: rest) sI).towers.length = 2 ∧
      (initializeTowersFromUpgrades (a0 :: a1 :: rest) sI).towers.map
          TowerInstance.target = [a0, a1] ∧
      (∀ t' ∈ (initializeTowersFromUpgrades (a0 :: a1 :: rest) sI).towers,
        t'.homePosition = none ∧ t'.isMoving = false ∧ t'.lastShotTime = 0 ∧
        t'.fireRateMs = (initializeTowersFromUpgrades (a0 :: a1 :: rest) sI).towerFireRateMs ∧
        t'.range = (initializeTowersFromUpgrades (a0 :: a1 :: rest) sI).towerRange) := by
    rintro sI hlevI ⟨tp', htwI, htgI⟩
    have htwo := initializeTowers_two a0 a1 rest sI tp' hlevI hne htwI htgI
    refine ⟨by rw [initializeTowers_upgradeState]; exact hlevI, ?_, ?_, ?_⟩
    · rw [htwo]
      rfl
    · rw [htwo]
      simp [resetExistingTower, mkFreshTower, htgI]
    · rw [htwo]
      intro t' ht'
      rcases List.mem_cons.mp ht' with h1 | h1
      · subst h1
        exact ⟨rfl, rfl, rfl, rfl, rfl⟩
      · rw [List.mem_singleton.mp h1]
        exact ⟨rfl, rfl, rfl, rfl, rfl⟩
  apply hkey
  · simp only [applyUpgradeEffects_upgradeState]
    simp [hlev]
  · obtain ⟨t1, ht1, htg1⟩ := applyUpgradeEffects_towers_singleton _ t0 htw
    obtain ⟨t2, ht2, htg2⟩ := applyUpgradeEffects_towers_singleton _ t1 ht1
    exact ⟨t2, ht2, by rw [htg2, htg1, htg]⟩

/-- Concrete instantiation of `claim_C9_amended`: from a one-tower Active
state with 60 points, purchasing tower-count yields two tower instances on
anchors 0 and 1. -/
theorem claim_C9_witness :
    (attemptPurchase [0, 1] UpgradeId.towerCount
        { demoState with
          points := 60
          towers := [{ mkFreshTower 0 2000 700 with
            homePosition := some ⟨1, 2⟩
            lastShotTime := 500 }] }).towers.map TowerInstance.target = [0, 1] :=
  (claim_C9_amended 0 1 [] _ _ rfl (by norm_num) (by norm_num) rfl rfl).2.2.1
